import Mathlib

/-
Shallow embedding of the attendance record engine of `src/app.py` (a Flask QR
attendance application).  File-system state (the data folder and the attendance
folder) is passed explicitly; `datetime.datetime.now()` is passed as an explicit
argument; pandas DataFrames are modelled either as header-plus-rows tables
(roster loading, where column handling matters) or as lists of typed records
(attendance tables, whose four columns are fixed by the writer).
Python string primitives that the Lean kernel cannot evaluate are re-implemented
over character lists and documented at their definitions.
-/

/-- Python `s.endswith(t)`, modelled on the character lists of the strings. -/
def strEndsWith (s t : String) : Bool :=
  t.data.isSuffixOf s.data

/-- Python `s.startswith(t)`, modelled on the character lists of the strings. -/
def strStartsWith (s t : String) : Bool :=
  t.data.isPrefixOf s.data

/-- Python `s.isdigit()` restricted to ASCII decimal digits: true when the
string is nonempty and every character is a decimal digit. -/
def strIsDigit (s : String) : Bool :=
  !s.data.isEmpty && s.data.all Char.isDigit

/-- Scanner of Python `str.replace`: replaces every non-overlapping occurrence
of `pat` in the list, left to right.  `fuel` only bounds the recursion; the
caller passes the length of the list, which suffices because every step
consumes at least one character (an empty `pat`, which the source never
passes, is copied unchanged). -/
def replaceAllAux (pat rep : List Char) : Nat → List Char → List Char
  | _, [] => []
  | 0, l => l
  | fuel + 1, c :: rest =>
    if !pat.isEmpty && pat.isPrefixOf (c :: rest) then
      rep ++ replaceAllAux pat rep fuel ((c :: rest).drop pat.length)
    else
      c :: replaceAllAux pat rep fuel rest

/-- Python `s.replace(pat, rep)`: every non-overlapping occurrence replaced,
scanning left to right. -/
def strReplace (s pat rep : String) : String :=
  ⟨replaceAllAux pat.data rep.data s.data.length s.data⟩

/-- Lexicographic comparison of character lists by Unicode code point, the
order Python uses to compare strings. -/
def charListLt : List Char → List Char → Bool
  | [], [] => false
  | [], _ :: _ => true
  | _ :: _, [] => false
  | a :: as, b :: bs => if a < b then true else if b < a then false else charListLt as bs

/-- Python `a < b` on strings. -/
def strLtB (a b : String) : Bool :=
  charListLt a.data b.data

/-- Insertion step of descending insertion sort on strings. -/
def insertDesc (x : String) : List String → List String
  | [] => [x]
  | y :: ys => if strLtB y x then x :: y :: ys else y :: insertDesc x ys

/-- Python `sorted(l, reverse=True)` on strings (insertion sort, descending). -/
def sortedDesc (l : List String) : List String :=
  l.foldr insertDesc []

/-- A roster row: one individual of a `students_*.csv` file, with the three
required columns. -/
structure Student where
  name : String
  phone_number : String
  photo : String
deriving DecidableEq

/-- One attendance event row of a session record file, with the four columns
written by `save_attendance`. -/
structure AttendanceEvent where
  name : String
  phone_number : String
  status : String
  timestamp : String
deriving DecidableEq

/-- `CSV_COLUMNS = ["name", "phone_number", "photo"]` of the source. -/
def CSV_COLUMNS : List String :=
  ["name", "phone_number", "photo"]

/-- A pandas DataFrame as a header (column names) plus rows of cells. -/
structure DataFrame where
  columns : List String
  rows : List (List String)
deriving DecidableEq

/-- pandas column projection `df[cols]`: for each row, the cells of the named
columns in the order of `cols`. -/
def DataFrame.select (df : DataFrame) (cols : List String) : DataFrame :=
  ⟨cols, df.rows.map (fun r => cols.map (fun c =>
    match df.columns.findIdx? (fun x => x == c) with
    | some i => r.getD i ""
    | none => ""))⟩

/-- A file of the data folder as the roster loader sees it: its name and the
result of `pd.read_csv` on it (`none` models a read error, the inner
`except` branch of `load_csv_files`). -/
structure RawFile where
  fname : String
  content : Option DataFrame
deriving DecidableEq

/-- Loop body of `load_csv_files` for one directory entry: `none` when the file
is skipped (name does not match `students_*.csv`, the read fails, or a
required column is missing, the warning branch), otherwise the frame
projected to `CSV_COLUMNS`. -/
def rosterFrame (f : RawFile) : Option DataFrame :=
  if strEndsWith f.fname ".csv" && strStartsWith f.fname "students_" then
    match f.content with
    | none => none
    | some df =>
      if CSV_COLUMNS.all (fun c => df.columns.contains c) then
        some (df.select CSV_COLUMNS)
      else none
  else none

/-- Acceptance failure that the spec calls "missing required columns": the file
is unreadable or its frame lacks one of `CSV_COLUMNS`. -/
def missingRequiredColumns (f : RawFile) : Bool :=
  match f.content with
  | none => true
  | some df => !(CSV_COLUMNS.all (fun c => df.columns.contains c))

/-- `load_csv_files`: `listing` models `os.listdir(DATA_FOLDER)` (`none` models
a failure of the scan itself, the outer `except` branch).  Valid frames are
concatenated with `pd.concat(students, ignore_index=True)`; with no valid
frame, and on total failure, an empty frame with `CSV_COLUMNS` results. -/
def load_csv_files (listing : Option (List RawFile)) : DataFrame :=
  match listing with
  | none => ⟨CSV_COLUMNS, []⟩
  | some files =>
    let students := files.filterMap rosterFrame
    if students.isEmpty then ⟨CSV_COLUMNS, []⟩
    else ⟨CSV_COLUMNS, (students.map DataFrame.rows).flatten⟩

/-- The pandas row mask of `find_student`: partial mode keeps the rows whose
phone field ends with `str(phone_number)[-4:]` (the last four characters of
the input); exact mode compares the phone field with the input as strings. -/
def studentMatches (phone_number : String) (partialMode : Bool) (s : Student) : Bool :=
  if partialMode then
    strEndsWith s.phone_number (phone_number.takeRight 4)
  else
    s.phone_number == phone_number

/-- `find_student`: filters the roster with the mask and takes `iloc[0]`, the
first matching row in roster order; an empty filter result is `None`
(NotFound).  The roster is the `Student` view of `load_csv_files`. -/
def find_student (roster : List Student) (phone_number : String)
    (partialMode : Bool) : Option Student :=
  roster.find? (studentMatches phone_number partialMode)

/-- Validation of the `/search` route (`search_student`): the digits must be
nonempty, at least 4 long and all decimal digits before the partial lookup
runs; otherwise the route answers "At least 4 digits required". -/
def search_student (roster : List Student) (phone_digits : String) : Option Student :=
  if 4 ≤ phone_digits.length ∧ strIsDigit phone_digits = true then
    find_student roster phone_digits true
  else
    none

/-- The four columns of a session record file, as written by `save_attendance`
and as given to the empty frame of `load_attendance`. -/
def ATTENDANCE_COLUMNS : List String :=
  ["name", "phone_number", "status", "timestamp"]

/-- The session record file name
`f"attendance_course_{course_id}_session_{session_id}.csv"`. -/
def attendanceFileName (course_id session_id : String) : String :=
  "attendance_course_" ++ course_id ++ "_session_" ++ session_id ++ ".csv"

/-- The attendance folder: file names with their parsed event tables.  A
session CSV is only ever written by `save_attendance`, with exactly
`ATTENDANCE_COLUMNS`, so a stored file is modelled as its event rows. -/
structure FS where
  files : List (String × List AttendanceEvent)
deriving DecidableEq

/-- `os.path.exists` plus `pd.read_csv` on one attendance file. -/
def FS.getFile (fs : FS) (fname : String) : Option (List AttendanceEvent) :=
  (fs.files.find? (fun p => p.1 == fname)).map Prod.snd

/-- `DataFrame.to_csv` on an attendance file: the full table replaces the file
content, creating the file when absent. -/
def FS.setFile (fs : FS) (fname : String) (tbl : List AttendanceEvent) : FS :=
  ⟨(fname, tbl) :: fs.files.filter (fun p => p.1 != fname)⟩

/-- `os.remove` on an attendance file. -/
def FS.removeFile (fs : FS) (fname : String) : FS :=
  ⟨fs.files.filter (fun p => p.1 != fname)⟩

/-- A session record table with its schema. -/
structure AttendanceTable where
  columns : List String
  events : List AttendanceEvent
deriving DecidableEq

/-- `load_attendance`: the stored table when the session file exists, otherwise
the empty frame `pd.DataFrame(columns=["name", "phone_number", "status",
"timestamp"])`. -/
def load_attendance (fs : FS) (course_id session_id : String) : AttendanceTable :=
  match fs.getFile (attendanceFileName course_id session_id) with
  | some evs => ⟨ATTENDANCE_COLUMNS, evs⟩
  | none => ⟨ATTENDANCE_COLUMNS, []⟩

/-- A wall-clock instant, the explicit stand-in for `datetime.datetime.now()`. -/
structure DateTime where
  year : Nat
  month : Nat
  day : Nat
  hour : Nat
  minute : Nat
  second : Nat
deriving DecidableEq

/-- strftime zero padding to width 2 (%m, %d, %H, %M, %S). -/
def pad2 (n : Nat) : String :=
  if n < 10 then "0" ++ toString n else toString n

/-- strftime zero padding to width 4 (%Y). -/
def pad4 (n : Nat) : String :=
  if n < 10 then "000" ++ toString n
  else if n < 100 then "00" ++ toString n
  else if n < 1000 then "0" ++ toString n
  else toString n

/-- `now.strftime("%Y-%m-%d %H:%M:%S")`. -/
def formatTimestamp (t : DateTime) : String :=
  pad4 t.year ++ "-" ++ pad2 t.month ++ "-" ++ pad2 t.day ++ " " ++
    pad2 t.hour ++ ":" ++ pad2 t.minute ++ ":" ++ pad2 t.second

/-- `save_attendance`: loads the current session table, fails with the
duplicate message when the student's phone number is already among the
recorded phone numbers (string comparison, any status), otherwise appends
the new row and rewrites the file.  Returns the source's (success, message)
pair together with the resulting attendance folder. -/
def save_attendance (student : Student) (status : String)
    (course_id session_id : String) (now : DateTime) (fs : FS) :
    (Bool × String) × FS :=
  let attendance_file := attendanceFileName course_id session_id
  let attendance := load_attendance fs course_id session_id
  if attendance.events.any (fun e => e.phone_number == student.phone_number) then
    ((false, "Duplicate attendance entry for this student"), fs)
  else
    let new_entry : AttendanceEvent :=
      { name := student.name
        phone_number := student.phone_number
        status := status
        timestamp := formatTimestamp now }
    ((true, "Attendance recorded successfully"),
      fs.setFile attendance_file (attendance.events ++ [new_entry]))

/-- Core of the `/reset_attendance` route: remove the session file when it
exists; a missing file is left alone and the handler redirects (success)
either way. -/
def reset_attendance (course_id session_id : String) (fs : FS) : FS :=
  fs.removeFile (attendanceFileName course_id session_id)

/-- A row of the history list built by `get_attendance_history`. -/
structure HistoryEntry where
  session : String
  status : String
  timestamp : String
deriving DecidableEq

/-- A directory entry of the attendance folder with its modification time, so
that the claim's "most recently modified" is expressible; the source never
reads `mtime`. -/
structure AttFolderEntry where
  fname : String
  mtime : Nat
  events : List AttendanceEvent
deriving DecidableEq

/-- `file.replace("attendance_", "").replace(".csv", "")`. -/
def sessionLabel (fname : String) : String :=
  strReplace (strReplace fname "attendance_" "") ".csv" ""

/-- Loop body of `get_attendance_history` for one listed file name: skip
non-csv names, read the file's table, and keep the first row whose phone
number equals the queried one (`iloc[0]`), labelled with the session. -/
def historyRow (folder : List AttFolderEntry) (phone_number : String)
    (file : String) : Option HistoryEntry :=
  if strEndsWith file ".csv" then
    match folder.find? (fun e => e.fname == file) with
    | some entry =>
      match entry.events.find? (fun r => r.phone_number == phone_number) with
      | some r => some ⟨sessionLabel file, r.status, r.timestamp⟩
      | none => none
    | none => none
  else none

/-- `get_attendance_history`: iterates
`sorted(os.listdir(ATTENDANCE_FOLDER), reverse=True)[:5]` (the five greatest
file names in descending string order, truncated before the `.csv` check)
and collects one history row per file that contains the phone number. -/
def get_attendance_history (folder : List AttFolderEntry)
    (phone_number : String) : List HistoryEntry :=
  ((sortedDesc (folder.map AttFolderEntry.fname)).take 5).filterMap
    (historyRow folder phone_number)

/-- `attendance_list`: the session rows with status "entry". -/
def present_students (attendance : AttendanceTable) : List AttendanceEvent :=
  attendance.events.filter (fun e => e.status == "entry")

/-- `attendance_list`: the session rows with status "reject". -/
def rejected_students (attendance : AttendanceTable) : List AttendanceEvent :=
  attendance.events.filter (fun e => e.status == "reject")

/-- `attendance_list`: the session rows with status "exit". -/
def exited_students (attendance : AttendanceTable) : List AttendanceEvent :=
  attendance.events.filter (fun e => e.status == "exit")

/-- `present_phones`: the phone numbers of the entry rows, as strings. -/
def present_phones (attendance : AttendanceTable) : List String :=
  (present_students attendance).map AttendanceEvent.phone_number

/-- `absent_students = all_students[~all_students["phone_number"].astype(str)
.isin(present_phones)]`: the roster rows whose phone number is not among the
entry rows (both `attendance_list` and `download_absent` compute this). -/
def absent_students (all_students : List Student)
    (attendance : AttendanceTable) : List Student :=
  all_students.filter (fun s => !((present_phones attendance).contains s.phone_number))

/-- Insertion step of descending insertion sort by modification time. -/
def insertDescMtime (x : AttFolderEntry) :
    List AttFolderEntry → List AttFolderEntry
  | [] => [x]
  | y :: ys => if y.mtime < x.mtime then x :: y :: ys else y :: insertDescMtime x ys

/-- Follows the claim's words, for comparison with the code: "the 5 most
recently modified session record sets" — the folder entries ordered by
modification time, newest first, truncated to five. -/
def mostRecentlyModified5 (folder : List AttFolderEntry) : List AttFolderEntry :=
  (folder.foldr insertDescMtime []).take 5

/-- Sample roster row used by concrete witnesses. -/
def alice : Student :=
  ⟨"Alice", "5551234", "a.jpg"⟩

/-- Sample roster row used by concrete witnesses. -/
def bob : Student :=
  ⟨"Bob", "5555678", "b.jpg"⟩

/-- Sample roster row with phone number ending in "1234", used by the partial
lookup counterexample. -/
def carol : Student :=
  ⟨"Carol", "991234", "c.jpg"⟩

/-- Sample instant used by concrete witnesses. -/
def t0 : DateTime :=
  ⟨2024, 1, 1, 10, 0, 0⟩

/-- The empty attendance folder. -/
def fs0 : FS :=
  ⟨[]⟩

/- Helper lemmas about the attendance folder operations. -/

theorem FS.getFile_setFile (fs : FS) (fname : String) (tbl : List AttendanceEvent) :
    (fs.setFile fname tbl).getFile fname = some tbl := by
  simp [FS.setFile, FS.getFile, List.find?]

theorem FS.getFile_removeFile (fs : FS) (fname : String) :
    (fs.removeFile fname).getFile fname = none := by
  have h : List.find? (fun p => p.1 == fname)
      (List.filter (fun p => p.1 != fname) fs.files) = none := by
    rw [List.find?_eq_none]
    intro x hx
    have hx2 := (List.mem_filter.mp hx).2
    simp only [bne_iff_ne, ne_eq] at hx2
    simp [hx2]
  simp [FS.removeFile, FS.getFile, h]

theorem FS.removeFile_removeFile (fs : FS) (fname : String) :
    (fs.removeFile fname).removeFile fname = fs.removeFile fname := by
  simp [FS.removeFile, List.filter_filter]

theorem save_attendance_dup (student : Student) (status course_id session_id : String)
    (now : DateTime) (fs : FS)
    (h : (load_attendance fs course_id session_id).events.any
      (fun e => e.phone_number == student.phone_number) = true) :
    save_attendance student status course_id session_id now fs =
      ((false, "Duplicate attendance entry for this student"), fs) := by
  simp [save_attendance, h]

theorem save_attendance_not_dup (student : Student) (status course_id session_id : String)
    (now : DateTime) (fs : FS)
    (h : (load_attendance fs course_id session_id).events.any
      (fun e => e.phone_number == student.phone_number) = false) :
    save_attendance student status course_id session_id now fs =
      ((true, "Attendance recorded successfully"),
        fs.setFile (attendanceFileName course_id session_id)
          ((load_attendance fs course_id session_id).events ++
            [{ name := student.name
               phone_number := student.phone_number
               status := status
               timestamp := formatTimestamp now }])) := by
  simp [save_attendance, h]

theorem load_attendance_setFile (fs : FS) (course_id session_id : String)
    (tbl : List AttendanceEvent) :
    load_attendance (fs.setFile (attendanceFileName course_id session_id) tbl)
      course_id session_id = ⟨ATTENDANCE_COLUMNS, tbl⟩ := by
  unfold load_attendance
  rw [FS.getFile_setFile]

/-- C5: for every (course_id, session_id) with no existing session record file,
`load_attendance` returns the empty table with the schema
[name, phone_number, status, timestamp], as a normal result rather than an
error. -/
theorem C5_load_missing_session_empty (fs : FS) (course_id session_id : String)
    (h : fs.getFile (attendanceFileName course_id session_id) = none) :
    load_attendance fs course_id session_id = ⟨ATTENDANCE_COLUMNS, []⟩ := by
  unfold load_attendance
  rw [h]

/-- Witness for C5: the empty attendance folder has no file for session (1,1)
and loading that session yields the empty table with the correct schema. -/
theorem C5_witness :
    fs0.getFile (attendanceFileName "1" "1") = none ∧
    load_attendance fs0 "1" "1" = ⟨ATTENDANCE_COLUMNS, []⟩ :=
  ⟨by decide, C5_load_missing_session_empty fs0 "1" "1" (by decide)⟩

/-- C6: `reset_attendance` is idempotent — resetting twice in a row equals
resetting once (deleting a nonexistent session record set is a no-op
success), and `load_attendance` after a reset yields the empty table. -/
theorem C6_reset_idempotent (course_id session_id : String) (fs : FS) :
    reset_attendance course_id session_id (reset_attendance course_id session_id fs) =
      reset_attendance course_id session_id fs ∧
    load_attendance (reset_attendance course_id session_id fs) course_id session_id =
      ⟨ATTENDANCE_COLUMNS, []⟩ := by
  constructor
  · exact FS.removeFile_removeFile fs _
  · unfold reset_attendance load_attendance
    rw [FS.getFile_removeFile]

/-- C10: a successful (non-duplicate) append preserves all previously recorded
events unchanged and in order, and appends the new event last, carrying the
student's name and phone number, the given status, and the current time
formatted by `formatTimestamp` (the strftime pattern "%Y-%m-%d %H:%M:%S"). -/
theorem C10_append_preserves_and_appends (student : Student)
    (status course_id session_id : String) (now : DateTime) (fs : FS)
    (h : (load_attendance fs course_id session_id).events.any
      (fun e => e.phone_number == student.phone_number) = false) :
    (save_attendance student status course_id session_id now fs).1.1 = true ∧
    (load_attendance (save_attendance student status course_id session_id now fs).2
        course_id session_id).events =
      (load_attendance fs course_id session_id).events ++
        [{ name := student.name
           phone_number := student.phone_number
           status := status
           timestamp := formatTimestamp now }] := by
  rw [save_attendance_not_dup student status course_id session_id now fs h]
  exact ⟨rfl, by rw [load_attendance_setFile]⟩

/-- Witness for C10: appending Alice with status "entry" to the empty session
store succeeds and yields exactly her event, timestamped. -/
theorem C10_witness :
    (load_attendance fs0 "1" "1").events.any
      (fun e => e.phone_number == alice.phone_number) = false ∧
    ((save_attendance alice "entry" "1" "1" t0 fs0).1.1 = true ∧
      (load_attendance (save_attendance alice "entry" "1" "1" t0 fs0).2 "1" "1").events =
        (load_attendance fs0 "1" "1").events ++
          [{ name := alice.name
             phone_number := alice.phone_number
             status := "entry"
             timestamp := formatTimestamp t0 }]) :=
  ⟨by decide, C10_append_preserves_and_appends alice "entry" "1" "1" t0 fs0 (by decide)⟩

/-- C1: after a successful append for a student, an immediately following
append for the same identifier — with any status — fails with the duplicate
message, leaves the store unchanged, and the session record store contains
exactly one event for that identifier. -/
theorem C1_duplicate_append_rejected (student : Student)
    (status1 status2 course_id session_id : String) (t1 t2 : DateTime) (fs : FS)
    (h : (save_attendance student status1 course_id session_id t1 fs).1.1 = true) :
    (save_attendance student status2 course_id session_id t2
        (save_attendance student status1 course_id session_id t1 fs).2).1 =
      (false, "Duplicate attendance entry for this student") ∧
    (save_attendance student status2 course_id session_id t2
        (save_attendance student status1 course_id session_id t1 fs).2).2 =
      (save_attendance student status1 course_id session_id t1 fs).2 ∧
    (load_attendance (save_attendance student status1 course_id session_id t1 fs).2
        course_id session_id).events.countP
      (fun e => e.phone_number == student.phone_number) = 1 := by
  have hc : (load_attendance fs course_id session_id).events.any
      (fun e => e.phone_number == student.phone_number) = false := by
    cases hb : (load_attendance fs course_id session_id).events.any
        (fun e => e.phone_number == student.phone_number)
    · rfl
    · rw [save_attendance_dup student status1 course_id session_id t1 fs hb] at h
      simp at h
  rw [save_attendance_not_dup student status1 course_id session_id t1 fs hc]
  have hload : load_attendance
      (fs.setFile (attendanceFileName course_id session_id)
        ((load_attendance fs course_id session_id).events ++
          [{ name := student.name
             phone_number := student.phone_number
             status := status1
             timestamp := formatTimestamp t1 }])) course_id session_id =
      ⟨ATTENDANCE_COLUMNS,
        (load_attendance fs course_id session_id).events ++
          [{ name := student.name
             phone_number := student.phone_number
             status := status1
             timestamp := formatTimestamp t1 }]⟩ :=
    load_attendance_setFile fs course_id session_id _
  have hdup : (load_attendance
      (fs.setFile (attendanceFileName course_id session_id)
        ((load_attendance fs course_id session_id).events ++
          [{ name := student.name
             phone_number := student.phone_number
             status := status1
             timestamp := formatTimestamp t1 }])) course_id session_id).events.any
      (fun e => e.phone_number == student.phone_number) = true := by
    rw [hload]
    simp [List.any_append]
  have hsave2 := save_attendance_dup student status2 course_id session_id t2 _ hdup
  refine ⟨by rw [hsave2], by rw [hsave2], ?_⟩
  rw [hload]
  have hzero : (load_attendance fs course_id session_id).events.countP
      (fun e => e.phone_number == student.phone_number) = 0 := by
    rw [List.countP_eq_zero]
    intro a ha
    intro hpa
    rw [List.any_eq_false] at hc
    exact hc a ha hpa
  simp [List.countP_append, hzero]

/-- Witness for C1: recording Alice's entry into the empty store succeeds; the
immediately repeated recording (with a different status) is rejected as a
duplicate, writes nothing, and the store holds exactly one Alice event. -/
theorem C1_witness :
    (save_attendance alice "entry" "1" "1" t0 fs0).1.1 = true ∧
    ((save_attendance alice "exit" "1" "1" t0
        (save_attendance alice "entry" "1" "1" t0 fs0).2).1 =
      (false, "Duplicate attendance entry for this student") ∧
    (save_attendance alice "exit" "1" "1" t0
        (save_attendance alice "entry" "1" "1" t0 fs0).2).2 =
      (save_attendance alice "entry" "1" "1" t0 fs0).2 ∧
    (load_attendance (save_attendance alice "entry" "1" "1" t0 fs0).2 "1" "1").events.countP
      (fun e => e.phone_number == alice.phone_number) = 1) :=
  ⟨by decide, C1_duplicate_append_rejected alice "entry" "exit" "1" "1" t0 t0 fs0 (by decide)⟩

/-- C9 counterexample: the record store accepts the status string "banana" —
not one of the three literal statuses — and records an event for it, so an
append with a status outside {entry, exit, reject} does record an event. -/
theorem C9_counterexample :
    (save_attendance alice "banana" "1" "1" t0 fs0).1.1 = true ∧
    (load_attendance (save_attendance alice "banana" "1" "1" t0 fs0).2 "1" "1").events =
      [⟨"Alice", "5551234", "banana", "2024-01-01 10:00:00"⟩] ∧
    (("banana" : String) == "entry" || ("banana" : String) == "exit" ||
      ("banana" : String) == "reject") = false := by
  decide

/-- C9 amended: the record store performs no status validation — an append
whose status is any string at all, even one outside {entry, exit, reject},
succeeds whenever the duplicate check passes and records an event carrying
that status verbatim. -/
theorem C9_amended_no_status_validation (student : Student)
    (status course_id session_id : String) (now : DateTime) (fs : FS)
    (_hstatus : (status == "entry" || status == "exit" || status == "reject") = false)
    (h : (load_attendance fs course_id session_id).events.any
      (fun e => e.phone_number == student.phone_number) = false) :
    (save_attendance student status course_id session_id now fs).1.1 = true ∧
    ({ name := student.name
       phone_number := student.phone_number
       status := status
       timestamp := formatTimestamp now } : AttendanceEvent) ∈
      (load_attendance (save_attendance student status course_id session_id now fs).2
        course_id session_id).events := by
  rw [save_attendance_not_dup student status course_id session_id now fs h]
  refine ⟨rfl, ?_⟩
  rw [load_attendance_setFile]
  simp

/-- Witness for C9's amended theorem: the status "banana" is none of the three
literals, the duplicate check passes on the empty store, and the append
succeeds, recording the "banana" event. -/
theorem C9_witness :
    ((("banana" : String) == "entry" || ("banana" : String) == "exit" ||
        ("banana" : String) == "reject") = false) ∧
    ((load_attendance fs0 "1" "1").events.any
      (fun e => e.phone_number == alice.phone_number) = false) ∧
    ((save_attendance alice "banana" "1" "1" t0 fs0).1.1 = true ∧
      ({ name := alice.name
         phone_number := alice.phone_number
         status := "banana"
         timestamp := formatTimestamp t0 } : AttendanceEvent) ∈
        (load_attendance (save_attendance alice "banana" "1" "1" t0 fs0).2 "1" "1").events) :=
  ⟨by decide, by decide,
    C9_amended_no_status_validation alice "banana" "1" "1" t0 fs0 (by decide) (by decide)⟩

/-- Two roster rows sharing one phone number, for the multiple-match witness. -/
def dup1 : Student :=
  ⟨"Ann", "1234", "a1.jpg"⟩

/-- Two roster rows sharing one phone number, for the multiple-match witness. -/
def dup2 : Student :=
  ⟨"Ben", "1234", "b1.jpg"⟩

/-- C3 counterexample: the five-digit input "51234" passes validation, no
roster phone ends with the full digit string "51234", yet the lookup
succeeds — find_student truncates the input to its last four characters
("1234") before the suffix match, so Carol ("991234") is returned. -/
theorem C3_counterexample :
    4 ≤ ("51234" : String).length ∧
    strIsDigit "51234" = true ∧
    [carol].all (fun s => !(strEndsWith s.phone_number "51234")) = true ∧
    search_student [carol] "51234" = some carol := by
  decide

/-- C3 amended: for a validated input (at least 4 characters, all decimal
digits) the partial lookup succeeds exactly when some roster phone field
ends with the last four characters of the input; an input failing
validation is rejected regardless of roster content. -/
theorem C3_amended_suffix_of_last4 (roster : List Student) (phone_digits : String) :
    (4 ≤ phone_digits.length ∧ strIsDigit phone_digits = true →
      ((search_student roster phone_digits).isSome = true ↔
        ∃ s ∈ roster, strEndsWith s.phone_number (phone_digits.takeRight 4) = true)) ∧
    (¬(4 ≤ phone_digits.length ∧ strIsDigit phone_digits = true) →
      search_student roster phone_digits = none) := by
  constructor
  · intro hv
    rw [search_student, if_pos hv, find_student]
    simp [List.find?_isSome, studentMatches]
  · intro hv
    rw [search_student, if_neg hv]

/-- Witness for C3's amended theorem at the one-row roster ["Carol"/"991234"]
with the validated input "1234". -/
theorem C3_witness :
    (4 ≤ ("1234" : String).length ∧ strIsDigit "1234" = true) ∧
    ((search_student [carol] "1234").isSome = true ↔
      ∃ s ∈ [carol], strEndsWith s.phone_number (("1234" : String).takeRight 4) = true) :=
  ⟨by decide, (C3_amended_suffix_of_last4 [carol] "1234").1 (by decide)⟩

/-- C8: whenever the resolver returns a student, that student is the first
matching row in roster iteration order (everything before it fails the
mask); and when no roster row matches, the resolver returns none
(NotFound), a normal result rather than an exception. -/
theorem C8_first_match_or_notfound (roster : List Student) (phone_number : String)
    (partialMode : Bool) :
    (∀ s, find_student roster phone_number partialMode = some s →
      studentMatches phone_number partialMode s = true ∧
      ∃ l1 l2, roster = l1 ++ s :: l2 ∧
        ∀ t ∈ l1, studentMatches phone_number partialMode t = false) ∧
    ((∀ t ∈ roster, studentMatches phone_number partialMode t = false) →
      find_student roster phone_number partialMode = none) := by
  constructor
  · intro s hs
    rw [find_student, List.find?_eq_some] at hs
    obtain ⟨hp, l1, l2, heq, hprev⟩ := hs
    exact ⟨hp, l1, l2, heq, fun t ht => by simpa using hprev t ht⟩
  · intro hall
    rw [find_student, List.find?_eq_none]
    intro x hx
    simp [hall x hx]

/-- Witness for C8: a roster with two rows sharing the phone number "1234";
the exact-mode resolver returns the first of them, with nothing before it. -/
theorem C8_witness :
    find_student [dup1, dup2] "1234" false = some dup1 ∧
    (studentMatches "1234" false dup1 = true ∧
      ∃ l1 l2, ([dup1, dup2] : List Student) = l1 ++ dup1 :: l2 ∧
        ∀ t ∈ l1, studentMatches "1234" false t = false) :=
  ⟨by decide, (C8_first_match_or_notfound [dup1, dup2] "1234" false).1 dup1 (by decide)⟩

/-- The session table holding a single reject event for Bob, the C2
counterexample input. -/
def rejTable : AttendanceTable :=
  ⟨ATTENDANCE_COLUMNS, [⟨"Bob", "5555678", "reject", "2024-01-01 10:00:00"⟩]⟩

/-- A session table with one entry event and one reject event for two distinct
identifiers, the C2 witness input. -/
def mixTable : AttendanceTable :=
  ⟨ATTENDANCE_COLUMNS,
    [⟨"Alice", "5551234", "entry", "2024-01-01 10:00:00"⟩,
     ⟨"Bob", "5555678", "reject", "2024-01-01 10:05:00"⟩]⟩

/-- C2 counterexample: with roster [Bob] and a single reject record for Bob,
the identifier "5555678" lies in both the rejected view and the absent view
(so the four views are not pairwise disjoint), and the absent view [Bob]
differs from the claim's "roster rows whose identifier appears in no
session record of any status", which here is empty: the code subtracts only
entry-status identifiers. -/
theorem C2_counterexample :
    ((rejected_students rejTable).map AttendanceEvent.phone_number).contains "5555678" = true ∧
    ((absent_students [bob] rejTable).map Student.phone_number).contains "5555678" = true ∧
    absent_students [bob] rejTable = [bob] ∧
    [bob].filter (fun st => rejTable.events.all
      (fun e => !(e.phone_number == st.phone_number))) = [] := by
  decide

theorem status_views_disjoint (evs : List AttendanceEvent)
    (h : evs.Pairwise (fun a b => a.phone_number ≠ b.phone_number))
    (st1 st2 : String) (hne : st1 ≠ st2) (p : String)
    (h1 : p ∈ (evs.filter (fun e => e.status == st1)).map AttendanceEvent.phone_number)
    (h2 : p ∈ (evs.filter (fun e => e.status == st2)).map AttendanceEvent.phone_number) :
    False := by
  obtain ⟨e1, he1, hp1⟩ := List.mem_map.mp h1
  obtain ⟨e2, he2, hp2⟩ := List.mem_map.mp h2
  obtain ⟨he1m, hs1⟩ := List.mem_filter.mp he1
  obtain ⟨he2m, hs2⟩ := List.mem_filter.mp he2
  have hs1' : e1.status = st1 := by simpa using hs1
  have hs2' : e2.status = st2 := by simpa using hs2
  have hne12 : e1 ≠ e2 := fun hEq => hne (by rw [← hs1', hEq, hs2'])
  have hR := List.Pairwise.forall (fun _ _ hab => Ne.symm hab) h he1m he2m hne12
  exact hR (hp1.trans hp2.symm)

theorem contains_present_phones (attendance : AttendanceTable) (p : String) :
    (present_phones attendance).contains p =
      attendance.events.any (fun e => e.status == "entry" && e.phone_number == p) := by
  rw [Bool.eq_iff_iff]
  constructor
  · intro hc
    have hm : p ∈ present_phones attendance := List.elem_iff.mp hc
    obtain ⟨e, hef, hep⟩ := List.mem_map.mp hm
    obtain ⟨hee, hes⟩ := List.mem_filter.mp hef
    rw [List.any_eq_true]
    exact ⟨e, hee, by simp [hes, hep]⟩
  · intro ha
    obtain ⟨e, hee, hb⟩ := List.any_eq_true.mp ha
    rw [Bool.and_eq_true] at hb
    apply List.elem_iff.mpr
    exact List.mem_map.mpr ⟨e, List.mem_filter.mpr ⟨hee, hb.1⟩, by simpa using hb.2⟩

theorem absent_students_eq (all_students : List Student) (attendance : AttendanceTable) :
    absent_students all_students attendance =
      all_students.filter (fun s => !(attendance.events.any
        (fun e => e.status == "entry" && e.phone_number == s.phone_number))) := by
  unfold absent_students
  apply List.filter_congr
  intro s _
  rw [contains_present_phones]

/-- C2 amended: for a session record set with at most one event per identifier
(the store's own invariant), the three status views present, rejected and
exited have pairwise disjoint identifier sets, the absent view is disjoint
from the present view, and present-identifiers together with the absent
rows cover the roster; but absent equals the roster rows whose identifier
appears in no entry-status record — records with status reject or exit do
not remove a roster row from absent. -/
theorem C2_amended_views (all_students : List Student) (attendance : AttendanceTable)
    (h : attendance.events.Pairwise (fun a b => a.phone_number ≠ b.phone_number)) :
    (∀ p, p ∈ (present_students attendance).map AttendanceEvent.phone_number →
      p ∉ (rejected_students attendance).map AttendanceEvent.phone_number) ∧
    (∀ p, p ∈ (present_students attendance).map AttendanceEvent.phone_number →
      p ∉ (exited_students attendance).map AttendanceEvent.phone_number) ∧
    (∀ p, p ∈ (rejected_students attendance).map AttendanceEvent.phone_number →
      p ∉ (exited_students attendance).map AttendanceEvent.phone_number) ∧
    (∀ s ∈ absent_students all_students attendance,
      s.phone_number ∉ (present_students attendance).map AttendanceEvent.phone_number) ∧
    (∀ s ∈ all_students,
      s.phone_number ∈ (present_students attendance).map AttendanceEvent.phone_number ∨
      s ∈ absent_students all_students attendance) ∧
    absent_students all_students attendance =
      all_students.filter (fun s => !(attendance.events.any
        (fun e => e.status == "entry" && e.phone_number == s.phone_number))) := by
  refine ⟨?_, ?_, ?_, ?_, ?_, absent_students_eq all_students attendance⟩
  · intro p h1 h2
    exact status_views_disjoint attendance.events h "entry" "reject" (by decide) p h1 h2
  · intro p h1 h2
    exact status_views_disjoint attendance.events h "entry" "exit" (by decide) p h1 h2
  · intro p h1 h2
    exact status_views_disjoint attendance.events h "reject" "exit" (by decide) p h1 h2
  · intro s hs hpmem
    obtain ⟨hmem, hpred⟩ := List.mem_filter.mp hs
    have hc : (present_phones attendance).contains s.phone_number = true :=
      List.elem_iff.mpr hpmem
    rw [hc] at hpred
    simp at hpred
  · intro s hsmem
    by_cases hc : (present_phones attendance).contains s.phone_number = true
    · exact Or.inl (List.elem_iff.mp hc)
    · refine Or.inr (List.mem_filter.mpr ⟨hsmem, ?_⟩)
      simp only [Bool.not_eq_true] at hc
      rw [hc]
      rfl

/-- Witness for C2's amended theorem: roster [Alice, Bob] against a session
with one entry (Alice) and one reject (Bob), which satisfies the
one-event-per-identifier hypothesis. -/
theorem C2_witness :
    mixTable.events.Pairwise (fun a b => a.phone_number ≠ b.phone_number) ∧
    ((∀ p, p ∈ (present_students mixTable).map AttendanceEvent.phone_number →
      p ∉ (rejected_students mixTable).map AttendanceEvent.phone_number) ∧
    (∀ p, p ∈ (present_students mixTable).map AttendanceEvent.phone_number →
      p ∉ (exited_students mixTable).map AttendanceEvent.phone_number) ∧
    (∀ p, p ∈ (rejected_students mixTable).map AttendanceEvent.phone_number →
      p ∉ (exited_students mixTable).map AttendanceEvent.phone_number) ∧
    (∀ s ∈ absent_students [alice, bob] mixTable,
      s.phone_number ∉ (present_students mixTable).map AttendanceEvent.phone_number) ∧
    (∀ s ∈ ([alice, bob] : List Student),
      s.phone_number ∈ (present_students mixTable).map AttendanceEvent.phone_number ∨
      s ∈ absent_students [alice, bob] mixTable) ∧
    absent_students [alice, bob] mixTable =
      ([alice, bob] : List Student).filter (fun s => !(mixTable.events.any
        (fun e => e.status == "entry" && e.phone_number == s.phone_number)))) :=
  ⟨by decide, C2_amended_views [alice, bob] mixTable (by decide)⟩

theorem load_csv_files_columns (listing : Option (List RawFile)) :
    (load_csv_files listing).columns = CSV_COLUMNS := by
  cases listing with
  | none => rfl
  | some files =>
    by_cases hE : (files.filterMap rosterFrame).isEmpty
    · simp [load_csv_files, hE]
    · simp [load_csv_files, hE]

theorem load_csv_files_rows (files : List RawFile) :
    (load_csv_files (some files)).rows =
      ((files.filterMap rosterFrame).map DataFrame.rows).flatten := by
  by_cases hE : (files.filterMap rosterFrame).isEmpty
  · have h0 : files.filterMap rosterFrame = [] := List.isEmpty_iff.mp hE
    simp [load_csv_files, h0]
  · simp [load_csv_files, hE]

theorem rosterFrame_eq_none_of_missing (f : RawFile)
    (h : missingRequiredColumns f = true) : rosterFrame f = none := by
  unfold rosterFrame
  by_cases hn : (strEndsWith f.fname ".csv" && strStartsWith f.fname "students_") = true
  · rw [if_pos hn]
    unfold missingRequiredColumns at h
    cases hc : f.content with
    | none => rfl
    | some df =>
      rw [hc] at h
      simp only [Bool.not_eq_true'] at h
      simp
      simpa using h
  · rw [if_neg hn]

/-- C7: the roster loader (a) returns the empty table with the roster schema on
a total scan failure, (b) always emits the canonical column list
[name, phone_number, photo], (c) skips (rather than fails on) any listed
roster file that is unreadable or lacks a required column, (d) concatenates
the surviving files' rows preserving file order then row order, and (e)
passes the rows of a well-formed roster file through unchanged, with no
column reordering. -/
theorem C7_roster_loader (l1 l2 : List RawFile) (bad : RawFile) (good : DataFrame) :
    load_csv_files none = ⟨CSV_COLUMNS, []⟩ ∧
    (∀ listing, (load_csv_files listing).columns = CSV_COLUMNS) ∧
    (missingRequiredColumns bad = true →
      load_csv_files (some (l1 ++ bad :: l2)) = load_csv_files (some (l1 ++ l2))) ∧
    (load_csv_files (some (l1 ++ l2))).rows =
      (load_csv_files (some l1)).rows ++ (load_csv_files (some l2)).rows ∧
    (good.columns = CSV_COLUMNS → (∀ r ∈ good.rows, r.length = 3) →
      load_csv_files (some [⟨"students_1.csv", some good⟩]) = ⟨CSV_COLUMNS, good.rows⟩) := by
  refine ⟨rfl, load_csv_files_columns, ?_, ?_, ?_⟩
  · intro hbad
    have hb := rosterFrame_eq_none_of_missing bad hbad
    have hfm : (l1 ++ bad :: l2).filterMap rosterFrame =
        (l1 ++ l2).filterMap rosterFrame := by
      simp [List.filterMap_append, List.filterMap_cons, hb]
    simp [load_csv_files, hfm]
  · rw [load_csv_files_rows, load_csv_files_rows, load_csv_files_rows,
      List.filterMap_append, List.map_append, List.flatten_append]
  · intro hcols hlen
    have hall : CSV_COLUMNS.all (fun c => good.columns.contains c) = true := by
      rw [hcols]
      decide
    have hname : (strEndsWith "students_1.csv" ".csv" &&
        strStartsWith "students_1.csv" "students_") = true := by decide
    have hframe : rosterFrame ⟨"students_1.csv", some good⟩ =
        some (good.select CSV_COLUMNS) := by
      unfold rosterFrame
      rw [if_pos hname]
      show (if (CSV_COLUMNS.all fun c => good.columns.contains c) = true
          then some (good.select CSV_COLUMNS) else none) = some (good.select CSV_COLUMNS)
      rw [if_pos hall]
    have hsel : good.select CSV_COLUMNS = good := by
      obtain ⟨cols, rows⟩ := good
      simp only [DataFrame.mk.injEq] at hcols
      subst hcols
      unfold DataFrame.select
      simp only [DataFrame.mk.injEq, true_and]
      have hrow : ∀ r ∈ rows, (CSV_COLUMNS.map (fun c =>
          match CSV_COLUMNS.findIdx? (fun x => x == c) with
          | some i => r.getD i ""
          | none => "")) = r := by
        intro r hr
        obtain ⟨a, b, c, rfl⟩ := List.length_eq_three.mp (hlen r hr)
        rfl
      calc rows.map (fun r => CSV_COLUMNS.map (fun c =>
              match CSV_COLUMNS.findIdx? (fun x => x == c) with
              | some i => r.getD i ""
              | none => ""))
          = rows.map id := List.map_congr_left hrow
        _ = rows := List.map_id rows
    simp [load_csv_files, hframe, hsel]

/-- A roster frame lacking the required columns phone_number and photo, used as
the skipped file of the C7 witness. -/
def badFile : RawFile :=
  ⟨"students_bad.csv", some ⟨["name"], [["x"]]⟩⟩

/-- A well-formed roster frame with the canonical columns and one row, used by
the C7 witness. -/
def goodFrame : DataFrame :=
  ⟨CSV_COLUMNS, [["Alice", "5551234", "a.jpg"]]⟩

/-- Witness for C7: a file with only a name column is skipped without failing
the load, and a well-formed single-row file loads to exactly its row. -/
theorem C7_witness :
    missingRequiredColumns badFile = true ∧
    goodFrame.columns = CSV_COLUMNS ∧
    (∀ r ∈ goodFrame.rows, r.length = 3) ∧
    load_csv_files (some ([] ++ badFile :: [])) = load_csv_files (some ([] ++ [])) ∧
    load_csv_files (some [⟨"students_1.csv", some goodFrame⟩]) = ⟨CSV_COLUMNS, goodFrame.rows⟩ :=
  ⟨by decide, by decide, by decide,
    (C7_roster_loader [] [] badFile goodFrame).2.2.1 (by decide),
    (C7_roster_loader [] [] badFile goodFrame).2.2.2.2 (by decide) (by decide)⟩

theorem historyRow_session (folder : List AttFolderEntry) (phone_number : String)
    (file : String) (h : HistoryEntry)
    (hr : historyRow folder phone_number file = some h) :
    h.session = sessionLabel file := by
  unfold historyRow at hr
  split at hr
  · split at hr
    · split at hr
      · cases hr
        rfl
      · cases hr
    · cases hr
  · cases hr

theorem historyRow_eq_none (folder : List AttFolderEntry) (phone_number : String)
    (file : String)
    (hnone : ∀ e ∈ folder, ∀ r ∈ e.events, r.phone_number ≠ phone_number) :
    historyRow folder phone_number file = none := by
  unfold historyRow
  split
  · cases hfind : folder.find? (fun e => e.fname == file) with
    | none => rfl
    | some entry =>
      have hent := List.mem_of_find?_eq_some hfind
      have hre : entry.events.find? (fun r => r.phone_number == phone_number) = none := by
        rw [List.find?_eq_none]
        intro r hr hb
        exact hnone entry hent r hr (by simpa using hb)
      show (match entry.events.find? (fun r => r.phone_number == phone_number) with
        | some r => some (⟨sessionLabel file, r.status, r.timestamp⟩ : HistoryEntry)
        | none => none) = none
      rw [hre]
  · rfl

theorem filterMap_map_sublist {α β γ : Type} (f : α → Option β) (g : β → γ) (h : α → γ)
    (H : ∀ a b, f a = some b → g b = h a) (l : List α) :
    List.Sublist ((l.filterMap f).map g) (l.map h) := by
  induction l with
  | nil => simp
  | cons a t ih =>
    cases hfa : f a with
    | none =>
      rw [List.filterMap_cons_none hfa, List.map_cons]
      exact List.Sublist.cons _ ih
    | some b =>
      rw [List.filterMap_cons_some hfa, List.map_cons, List.map_cons, H a b hfa]
      exact List.Sublist.cons₂ _ ih

/-- C4 amended: `get_attendance_history` returns at most five entries, drawn
only from the five greatest file names of the attendance folder listing in
descending lexicographic order (not the five most recently modified); each
returned entry takes its session label from such a file name and its status
and timestamp from a record of that file matching the identifier; sessions
without a matching record contribute no entry; an identifier matching no
record yields the empty list (a normal result, not an error); and the
entries appear in descending file-name order. -/
theorem C4_amended_history (folder : List AttFolderEntry) (phone_number : String) :
    (get_attendance_history folder phone_number).length ≤ 5 ∧
    (∀ h ∈ get_attendance_history folder phone_number,
      ∃ file ∈ (sortedDesc (folder.map AttFolderEntry.fname)).take 5,
        strEndsWith file ".csv" = true ∧
        ∃ entry, folder.find? (fun e => e.fname == file) = some entry ∧
          ∃ r ∈ entry.events, r.phone_number = phone_number ∧
            h = ⟨sessionLabel file, r.status, r.timestamp⟩) ∧
    ((∀ e ∈ folder, ∀ r ∈ e.events, r.phone_number ≠ phone_number) →
      get_attendance_history folder phone_number = []) ∧
    List.Sublist ((get_attendance_history folder phone_number).map HistoryEntry.session)
      (((sortedDesc (folder.map AttFolderEntry.fname)).take 5).map sessionLabel) := by
  refine ⟨?_, ?_, ?_, ?_⟩
  · calc (get_attendance_history folder phone_number).length
        ≤ ((sortedDesc (folder.map AttFolderEntry.fname)).take 5).length :=
          List.length_filterMap_le _ _
      _ ≤ 5 := by rw [List.length_take]; exact min_le_left _ _
  · intro h hh
    obtain ⟨file, hfile, hrow⟩ := List.mem_filterMap.mp hh
    refine ⟨file, hfile, ?_⟩
    unfold historyRow at hrow
    split at hrow
    next hcsv =>
      refine ⟨hcsv, ?_⟩
      split at hrow
      next entry hfind =>
        split at hrow
        next r hre =>
          cases hrow
          exact ⟨entry, hfind, r, List.mem_of_find?_eq_some hre,
            by simpa using List.find?_some hre, rfl⟩
        next hre => cases hrow
      next hfind => cases hrow
    next hcsv => cases hrow
  · intro hnone
    rw [get_attendance_history, List.filterMap_eq_nil_iff]
    intro file _
    exact historyRow_eq_none folder phone_number file hnone
  · exact filterMap_map_sublist (historyRow folder phone_number) HistoryEntry.session
      sessionLabel (fun a b hab => historyRow_session folder phone_number a b hab) _

/-- An attendance folder with six session files whose name order disagrees with
their modification order: session 10 is the newest (mtime 100) but has the
lexicographically smallest name, while session 2 is the oldest (mtime 2)
and survives the name-descending cut.  Phone "1234" has records in the
session 2 and session 10 files only. -/
def folder6 : List AttFolderEntry :=
  [⟨"attendance_course_1_session_2.csv", 2,
      [⟨"Carl", "1234", "entry", "2024-01-02 09:00:00"⟩]⟩,
   ⟨"attendance_course_1_session_3.csv", 3, []⟩,
   ⟨"attendance_course_1_session_4.csv", 4, []⟩,
   ⟨"attendance_course_1_session_5.csv", 5, []⟩,
   ⟨"attendance_course_1_session_6.csv", 6, []⟩,
   ⟨"attendance_course_1_session_10.csv", 100,
      [⟨"Carl", "1234", "entry", "2024-01-10 09:00:00"⟩]⟩]

/-- C4 counterexample: on `folder6` the history for "1234" consists of exactly
one entry, taken from the session 2 file — yet the five most recently
modified session record sets are sessions 10, 6, 5, 4 and 3, which do not
include session 2 (and the history misses session 10, the most recently
modified one, entirely).  The scan window is the five greatest file names
in descending string order, not the five most recently modified files. -/
theorem C4_counterexample :
    get_attendance_history folder6 "1234" =
      [⟨"course_1_session_2", "entry", "2024-01-02 09:00:00"⟩] ∧
    (mostRecentlyModified5 folder6).map AttFolderEntry.fname =
      ["attendance_course_1_session_10.csv", "attendance_course_1_session_6.csv",
       "attendance_course_1_session_5.csv", "attendance_course_1_session_4.csv",
       "attendance_course_1_session_3.csv"] ∧
    ((mostRecentlyModified5 folder6).map (fun e => sessionLabel e.fname)).contains
      "course_1_session_2" = false := by
  decide

/-- Witness for C4's amended theorem: the identifier "9999" matches no record
of `folder6`, and its history is the empty list, not an error. -/
theorem C4_witness :
    (∀ e ∈ folder6, ∀ r ∈ e.events, r.phone_number ≠ "9999") ∧
    get_attendance_history folder6 "9999" = [] :=
  ⟨by decide, (C4_amended_history folder6 "9999").2.2.1 (by decide)⟩
